import Mathlib

/-!
# The OCR facade (`ocr.h` / `ocr.cpp`)

A shallow embedding of the four foreign-callable operations `ocr_init`, `ocr_cleanup`,
`ocr_detect` and `ocr_detect2`, written by explicit state passing.

* The process-wide pointer `g_ocrLite` is a field of `World`; `nullptr` is `none`.
* The engine class `OcrLite`, `stat` and the rendering of floating-point numbers are external
  collaborators; they enter through `Env`.
* `nlohmann::json` values are the inductive type `json`; the members the facade uses are
  `operator[]` (here `json.subscript`), `push_back`, assignment and `dump`.
* C `int` is `Int`; the only place where the 32-bit width matters is the cast
  `static_cast<int>(tempJsonStr.length())`, which wraps modulo `2 ^ 32`.
-/

namespace OcrFacade

/-! ## Values that cross the boundary -/

/-- A floating-point value, given by its IEEE-754 bit pattern: `f32` for a C `float`, `f64` for a
C `double`. The facade never computes with such a value, it only hands it on. -/
inductive CFloat where
  | f32 (bits : Nat)
  | f64 (bits : Nat)
deriving DecidableEq, Repr

/-- The real number denoted by a `CFloat` whose bit pattern is a finite `float` / `double`. -/
def CFloat.toRat : CFloat → ℚ
  | .f32 b =>
    let s : ℚ := if b / 2 ^ 31 % 2 = 1 then -1 else 1
    let e : Nat := b / 2 ^ 23 % 2 ^ 8
    let m : Nat := b % 2 ^ 23
    if e = 0 then s * (m : ℚ) * (2 : ℚ) ^ (-149 : Int)
    else s * ((2 ^ 23 + m : Nat) : ℚ) * (2 : ℚ) ^ ((e : Int) - 150)
  | .f64 b =>
    let s : ℚ := if b / 2 ^ 63 % 2 = 1 then -1 else 1
    let e : Nat := b / 2 ^ 52 % 2 ^ 11
    let m : Nat := b % 2 ^ 52
    if e = 0 then s * (m : ℚ) * (2 : ℚ) ^ (-1074 : Int)
    else s * ((2 ^ 52 + m : Nat) : ℚ) * (2 : ℚ) ^ ((e : Int) - 1075)

def kOcrError : Int := 0
def kOcrSuccess : Int := 1
def kDefaultPadding : Int := 50
def kDefaultMaxSideLen : Int := 1024
/-- The literal `0.6f`. -/
def kDefaultBoxScoreThresh : CFloat := .f32 0x3F19999A
/-- The literal `0.3f`. -/
def kDefaultBoxThresh : CFloat := .f32 0x3E99999A
/-- The literal `2.0f`. -/
def kDefaultUnClipRatio : CFloat := .f32 0x40000000
def kDefaultDoAngle : Bool := true
def kDefaultMostAngle : Bool := true

/-- Modelled from the spec: `cv::Point` is declared outside the facade sources; the facade reads
its two `int` members `x` and `y`. -/
structure Point where
  x : Int
  y : Int
deriving DecidableEq, Repr

/-- Modelled from the spec: `TextBlock` is declared in the engine headers, which are not part of
the facade sources; these are the members `ocr_detect` reads, with the types of §3 and §6. -/
structure TextBlock where
  boxPoint : List Point
  boxScore : CFloat
  angleIndex : Int
  angleScore : CFloat
  angleTime : CFloat
  charScores : List CFloat
  text : String
  crnnTime : CFloat
  blockTime : CFloat
deriving DecidableEq, Repr

/-- Modelled from the spec: `OcrResult` is declared in the engine headers, which are not part of
the facade sources; these are the members `ocr_detect` reads. -/
structure OcrResult where
  dbNetTime : CFloat
  textBlocks : List TextBlock
  detectTime : CFloat
deriving DecidableEq, Repr

/-! ## The engine object and the process state -/

/-- One argument of the variadic `OcrLite::Logger` call, after the default argument promotions
(`bool` to `int`, `float` to `double`). -/
inductive LogArg where
  | int (i : Int)
  | str (s : String)
  | double (f : CFloat)
deriving DecidableEq, Repr

/-- A member function of `OcrLite` called by the facade, with its arguments. -/
inductive EngineCall where
  | setNumThread (numThread : Int)
  | initLogger (isConsole isPartImg isResultImg : Bool)
  | Logger (format : String) (args : List LogArg)
  | initModels (detPath clsPath recPath keysPath : String)
  | detect (outDir imgPath : String) (padding maxSideLen : Int)
      (boxScoreThresh boxThresh unClipRatio : CFloat) (doAngle mostAngle : Bool)
deriving DecidableEq, Repr

/-- Modelled from the spec: the class `OcrLite` is declared in `OcrLite.h`, which is not part of
the facade sources. An engine object is known to the facade only through the member functions
called on it, so its state is the sequence of those calls since construction. -/
structure OcrLite where
  calls : List EngineCall
deriving DecidableEq, Repr

/-- The result of `new OcrLite()`: an object on which nothing has been called yet. -/
def OcrLite.new : OcrLite := ⟨[]⟩

/-- Calling a member function on the object. -/
def OcrLite.call (o : OcrLite) (c : EngineCall) : OcrLite := ⟨o.calls ++ [c]⟩

/-- What the facade does to the process outside the engine object. -/
inductive SysCall where
  | omp_set_num_threads (n : Int)
  | new_OcrLite
  | delete_OcrLite
  | stat (name : String)
  | memcpy (n : Nat)
deriving DecidableEq, Repr

/-- The process state seen by the facade: the global `g_ocrLite` and the calls made so far. -/
structure World where
  g_ocrLite : Option OcrLite
  sys : List SysCall
deriving DecidableEq, Repr

/-- The state of a process that has not called the facade yet (`g_ocrLite = nullptr`). -/
def World.start : World := ⟨none, []⟩

def World.sysCall (w : World) (c : SysCall) : World := { w with sys := w.sys ++ [c] }

/-- Modelled from the spec: the collaborators of the facade that are not part of its sources.
`stat name` tells whether `stat(name, &buffer) == 0`; `detect o ...` is the value returned by
`OcrLite::detect` on the engine object `o`; `dump_float` is the text `json::dump` prints for a
floating-point number. -/
structure Env where
  stat : String → Bool
  detect : OcrLite → String → String → Int → Int → CFloat → CFloat → CFloat → Bool → Bool →
    OcrResult
  dump_float : CFloat → List UInt8

def isFileExists (env : Env) (w : World) (name : String) : Bool × World :=
  (env.stat name, w.sysCall (.stat name))

/-! ## `nlohmann::json` -/

/-- Modelled from the spec: `json.hpp` (nlohmann::json) is not part of the facade sources and the
spec fixes only the serialized shape, so the value model follows the documented behaviour of the
library: a value is `null`, a boolean, a number, a string, an array, or an object whose members
are kept in a `std::map`, that is, sorted by key. The members of the class that the facade
calls follow below: `operator[]` (`json.subscript`), assignment, `push_back` and `dump`; `find`
is there for the statements about the built value. A `std::string` is taken to hold valid
UTF-8 text, for which `dump` does not throw. -/
inductive json where
  | null
  | boolean (b : Bool)
  | number_integer (i : Int)
  | number_float (f : CFloat)
  | string (s : String)
  | array (a : List json)
  | object (o : List (String × json))
deriving Repr

/-- The exceptions of the library that the calls of the facade could raise. -/
inductive type_error where
  /-- `operator[]` with a string argument on a value that is neither `null` nor an object. -/
  | e305
  /-- `push_back` on a value that is neither `null` nor an array. -/
  | e308
deriving DecidableEq, Repr

/-- The bytes of a `std::string` holding the text `s` (UTF-8). -/
def utf8 (s : String) : List UInt8 := s.data.flatMap String.utf8EncodeChar

/-- Lexicographic comparison of byte strings, as `std::string::compare` does it. -/
def bytesLt : List UInt8 → List UInt8 → Bool
  | _, [] => false
  | [], _ :: _ => true
  | a :: as, b :: bs => if a < b then true else if b < a then false else bytesLt as bs

/-- The comparison `std::less<std::string>` of the object's `std::map`. -/
def keyLt (a b : String) : Bool := bytesLt (utf8 a) (utf8 b)

/-- The member behind `m[key]` in a sorted member list, given to `f` and stored back; a key that is
not there is first inserted with the value `null`. -/
def mapSubscript (key : String) (f : json → Except type_error json) :
    List (String × json) → Except type_error (List (String × json))
  | [] => do
    let v ← f .null
    pure [(key, v)]
  | (k, v) :: rest =>
    if keyLt key k then do
      let v0 ← f .null
      pure ((key, v0) :: (k, v) :: rest)
    else if keyLt k key then do
      let rest1 ← mapSubscript key f rest
      pure ((k, v) :: rest1)
    else do
      let v1 ← f v
      pure ((k, v1) :: rest)

/-- The expression `j[key]` used as the target of `f`: `null` first becomes an empty object, an
object yields the reference to its member `key`, anything else throws. -/
def json.subscript (j : json) (key : String) (f : json → Except type_error json) :
    Except type_error json :=
  match j with
  | .null => do
    let o ← mapSubscript key f []
    pure (.object o)
  | .object o => do
    let o1 ← mapSubscript key f o
    pure (.object o1)
  | _ => throw .e305

/-- The assignment `ref = v`. -/
def json.assign (v : json) : json → Except type_error json := fun _ => pure v

/-- The call `ref.push_back(v)`: `null` first becomes an empty array, an array gets `v` appended,
anything else throws. -/
def json.push_back (v : json) : json → Except type_error json
  | .null => pure (.array [v])
  | .array a => pure (.array (a ++ [v]))
  | _ => throw .e308

/-- The member `key` of an object, if there is one (`find`). -/
def json.find (j : json) (key : String) : Option json :=
  match j with
  | .object o => (o.find? (fun kv => !keyLt kv.1 key && !keyLt key kv.1)).map Prod.snd
  | _ => none

/-- The bytes of an ASCII text. -/
def ascii (s : String) : List UInt8 := s.data.map (fun c => c.toNat.toUInt8)

def hexDigit (n : Nat) : UInt8 := if n < 10 then (48 + n).toUInt8 else (87 + n).toUInt8

/-- One code point as `dump` prints it inside a string (`ensure_ascii = false`). -/
def dump_escaped_char (c : Char) : List UInt8 :=
  if c.toNat = 0x08 then ascii "\\b"
  else if c.toNat = 0x09 then ascii "\\t"
  else if c.toNat = 0x0A then ascii "\\n"
  else if c.toNat = 0x0C then ascii "\\f"
  else if c.toNat = 0x0D then ascii "\\r"
  else if c.toNat = 0x22 then ascii "\\\""
  else if c.toNat = 0x5C then ascii "\\\\"
  else if c.toNat ≤ 0x1F then ascii "\\u00" ++ [hexDigit (c.toNat / 16), hexDigit (c.toNat % 16)]
  else String.utf8EncodeChar c

def dump_escaped (s : String) : List UInt8 := s.data.flatMap dump_escaped_char

def dump_string (s : String) : List UInt8 := 34 :: dump_escaped s ++ [34]

def dump_integer (i : Int) : List UInt8 :=
  if i < 0 then 45 :: ascii (String.mk (Nat.toDigits 10 i.natAbs))
  else ascii (String.mk (Nat.toDigits 10 i.natAbs))

mutual
/-- The call `j.dump()` with its default arguments: compact, no indentation. -/
def json.dump (df : CFloat → List UInt8) : json → List UInt8
  | .null => ascii "null"
  | .boolean b => if b then ascii "true" else ascii "false"
  | .number_integer i => dump_integer i
  | .number_float f => df f
  | .string s => dump_string s
  | .array a => 91 :: dumpElements df a ++ [93]
  | .object o => 123 :: dumpMembers df o ++ [125]
/-- The elements of an array, separated by commas. -/
def dumpElements (df : CFloat → List UInt8) : List json → List UInt8
  | [] => []
  | x :: xs =>
    x.dump df ++ (match xs with
      | [] => []
      | _ :: _ => 44 :: dumpElements df xs)
/-- The members of an object, `"key":value`, separated by commas. -/
def dumpMembers (df : CFloat → List UInt8) : List (String × json) → List UInt8
  | [] => []
  | (k, v) :: xs =>
    dump_string k ++ 58 :: v.dump df ++ (match xs with
      | [] => []
      | _ :: _ => 44 :: dumpMembers df xs)
end

/-! ## The facade -/

def ocr_init (env : Env) (w : World) (numThread : Int)
    (dbNetPath anglePath crnnPath keyPath : String) : Int × World :=
  let w := w.sysCall (.omp_set_num_threads numThread)
  let (o, w) := match w.g_ocrLite with
    | none => (OcrLite.new, w.sysCall .new_OcrLite)
    | some o => (o, w)
  let o := o.call (.setNumThread numThread)
  let o := o.call (.initLogger true false true)
  let o := o.call (.Logger
    "ocr_init numThread=%d, dbNetPath=%s,anglePath=%s,crnnPath=%s,keyPath=%s \n"
    [.int numThread, .str dbNetPath, .str anglePath, .str crnnPath, .str keyPath])
  let invalid (o : OcrLite) (w : World) : Int × World :=
    (kOcrError, { w with g_ocrLite := some (o.call (.Logger "invalid file path.\n" [])) })
  let (e1, w) := isFileExists env w dbNetPath
  if !e1 then invalid o w else
  let (e2, w) := isFileExists env w anglePath
  if !e2 then invalid o w else
  let (e3, w) := isFileExists env w crnnPath
  if !e3 then invalid o w else
  let (e4, w) := isFileExists env w keyPath
  if !e4 then invalid o w else
  let o := o.call (.initModels dbNetPath anglePath crnnPath keyPath)
  (kOcrSuccess, { w with g_ocrLite := some o })

def ocr_cleanup (w : World) : World :=
  match w.g_ocrLite with
  | some _ => { (w.sysCall .delete_OcrLite) with g_ocrLite := none }
  | none => w

/-- The conversion `static_cast<int>(n)` of a `size_t`: the value modulo `2 ^ 32`, read as a
signed 32-bit number. -/
def static_cast_int (n : Nat) : Int := ((n : Int) + 2 ^ 31) % 2 ^ 32 - 2 ^ 31

/-- The call `memcpy(dst, src, n)` on the memory that starts at `dst`; `src` holds at least `n`
bytes. A write past the end of `dst` shows as a longer list. -/
def memcpy (dst src : List UInt8) (n : Nat) : List UInt8 := src.take n ++ dst.drop n

/-- The body of the inner loop over `item.boxPoint`. -/
def pushBoxPoint (textBlock : json) (boxPoint : Point) : Except type_error json := do
  let point := json.null
  let point ← point.subscript "x" (json.assign (.number_integer boxPoint.x))
  let point ← point.subscript "y" (json.assign (.number_integer boxPoint.y))
  textBlock.subscript "boxPoint" (json.push_back point)

/-- The body of the inner loop over `item.charScores`. -/
def pushCharScore (textBlock : json) (score : CFloat) : Except type_error json :=
  textBlock.subscript "charScores" (json.push_back (.number_float score))

/-- Lines 67 to 83 of `ocr.cpp`: the value `textBlock` built for one item of
`result.textBlocks`. -/
def mkTextBlock (item : TextBlock) : Except type_error json := do
  let textBlock := json.null
  let textBlock ← item.boxPoint.foldlM pushBoxPoint textBlock
  let textBlock ← item.charScores.foldlM pushCharScore textBlock
  let textBlock ← textBlock.subscript "text" (json.assign (.string item.text))
  let textBlock ← textBlock.subscript "boxScore" (json.assign (.number_float item.boxScore))
  let textBlock ← textBlock.subscript "angleIndex" (json.assign (.number_integer item.angleIndex))
  let textBlock ← textBlock.subscript "angleScore" (json.assign (.number_float item.angleScore))
  let textBlock ← textBlock.subscript "angleTime" (json.assign (.number_float item.angleTime))
  let textBlock ← textBlock.subscript "crnnTime" (json.assign (.number_float item.crnnTime))
  textBlock.subscript "blockTime" (json.assign (.number_float item.blockTime))

/-- The body of the loop over `result.textBlocks`. -/
def pushTextBlock (root : json) (item : TextBlock) : Except type_error json := do
  let textBlock ← mkTextBlock item
  let root ← root.subscript "textBlocks" (json.push_back textBlock)
  root.subscript "texts" (json.push_back (.string item.text))

/-- Lines 63 to 86 of `ocr.cpp`: the value `root` built from the engine's result. -/
def buildRoot (result : OcrResult) : Except type_error json := do
  let root := json.null
  let root ← root.subscript "dbNetTime" (json.assign (.number_float result.dbNetTime))
  let root ← root.subscript "detectTime" (json.assign (.number_float result.detectTime))
  result.textBlocks.foldlM pushTextBlock root

/-- The `Logger` call of lines 58 to 60 of `ocr.cpp`; the variadic arguments are listed after
the default argument promotions. -/
def paramsLog (padding maxSideLen : Int) (boxScoreThresh boxThresh unClipRatio : CFloat)
    (doAngle mostAngle : Bool) : EngineCall :=
  .Logger
    ("padding(%d),maxSideLen(%d),boxScoreThresh(%f),boxThresh(%f),unClipRatio(%f)," ++
      "doAngle(%d),mostAngle(%d)\n")
    [.int padding, .int maxSideLen, .double boxScoreThresh, .double boxThresh,
      .double unClipRatio, .int (if doAngle then 1 else 0), .int (if mostAngle then 1 else 0)]

/-- What a call of `ocr_detect` leaves behind: the returned status, the process state, the memory
at `out_buffer` and the value of `*buffer_len`. -/
structure DetectReturn where
  status : Int
  world : World
  out_buffer : List UInt8
  buffer_len : Int
deriving DecidableEq, Repr

/-- The function `ocr_detect`; an exception thrown while `root` is built leaves the function
without a return value (`Except.error`). -/
def ocr_detect (env : Env) (w : World) (image_path : String) (out_buffer : List UInt8)
    (buffer_len : Int) (padding maxSideLen : Int) (boxScoreThresh boxThresh unClipRatio : CFloat)
    (doAngle mostAngle : Bool) : Except type_error DetectReturn :=
  match w.g_ocrLite with
  | none => pure ⟨kOcrError, w, out_buffer, buffer_len⟩
  | some o =>
    let (e, w) := isFileExists env w image_path
    if !e then pure ⟨kOcrError, w, out_buffer, buffer_len⟩ else do
    let o := o.call (paramsLog padding maxSideLen boxScoreThresh boxThresh unClipRatio doAngle
      mostAngle)
    let result := env.detect o "" image_path padding maxSideLen boxScoreThresh boxThresh
      unClipRatio doAngle mostAngle
    let o := o.call (.detect "" image_path padding maxSideLen boxScoreThresh boxThresh
      unClipRatio doAngle mostAngle)
    let root ← buildRoot result
    let tempJsonStr := root.dump env.dump_float
    if static_cast_int tempJsonStr.length > buffer_len then
      let o := o.call (.Logger "buff_len is too small \n" [])
      pure ⟨kOcrError, { w with g_ocrLite := some o }, out_buffer, buffer_len⟩
    else
      let buffer_len := static_cast_int tempJsonStr.length
      let w := w.sysCall (.memcpy tempJsonStr.length)
      let out_buffer := memcpy out_buffer tempJsonStr tempJsonStr.length
      pure ⟨kOcrSuccess, { w with g_ocrLite := some o }, out_buffer, buffer_len⟩

def ocr_detect2 (env : Env) (w : World) (image_path : String) (out_buffer : List UInt8)
    (buffer_len : Int) : Except type_error DetectReturn :=
  ocr_detect env w image_path out_buffer buffer_len kDefaultPadding kDefaultMaxSideLen
    kDefaultBoxScoreThresh kDefaultBoxThresh kDefaultUnClipRatio kDefaultDoAngle kDefaultMostAngle

/-! ## The value built by the serialization loops -/

/-- The value `point` built for one corner. -/
def pointJson (p : Point) : json :=
  .object [("x", .number_integer p.x), ("y", .number_integer p.y)]

/-- Several `push_back` calls on the same reference, one after the other. -/
def pushMany (vs : List json) : json → Except type_error json
  | .null => pure (.array vs)
  | .array a => pure (.array (a ++ vs))
  | _ => throw .e308


/-- The value `textBlock` that lines 67 to 83 build for one item: the members in key order;
`boxPoint` and `charScores` exist only if the item has at least one point, one score. -/
def blockJson (item : TextBlock) : json :=
  .object
    ([("angleIndex", .number_integer item.angleIndex),
      ("angleScore", .number_float item.angleScore),
      ("angleTime", .number_float item.angleTime),
      ("blockTime", .number_float item.blockTime)] ++
     (match item.boxPoint with
      | [] => []
      | p :: ps => [("boxPoint", .array ((p :: ps).map pointJson))]) ++
     [("boxScore", .number_float item.boxScore)] ++
     (match item.charScores with
      | [] => []
      | s :: ss => [("charScores", .array ((s :: ss).map json.number_float))]) ++
     [("crnnTime", .number_float item.crnnTime),
      ("text", .string item.text)])

/-- The value `root` that lines 63 to 86 build: the members in key order; `textBlocks` and
`texts` exist only if the result has at least one text block. -/
def rootJson (result : OcrResult) : json :=
  .object
    ([("dbNetTime", .number_float result.dbNetTime),
      ("detectTime", .number_float result.detectTime)] ++
     (match result.textBlocks with
      | [] => []
      | b :: bs =>
        [("textBlocks", .array ((b :: bs).map blockJson)),
         ("texts", .array ((b :: bs).map fun item => .string item.text))]))

/-! ## Names for what the theorems talk about -/

/-- The calls `ocr_init` makes on the engine object before it looks at the four paths. -/
def initCalls (numThread : Int) (dbNetPath anglePath crnnPath keyPath : String) :
    List EngineCall :=
  [.setNumThread numThread, .initLogger true false true,
   .Logger "ocr_init numThread=%d, dbNetPath=%s,anglePath=%s,crnnPath=%s,keyPath=%s \n"
     [.int numThread, .str dbNetPath, .str anglePath, .str crnnPath, .str keyPath]]

/-- The calls already made on the engine object `g_ocrLite` points to; none for `nullptr`. -/
def World.engineCalls (w : World) : List EngineCall :=
  match w.g_ocrLite with
  | some o => o.calls
  | none => []

/-- All four paths given to `ocr_init` exist: the condition of line 35 of `ocr.cpp` is false. -/
def pathsExist (env : Env) (dbNetPath anglePath crnnPath keyPath : String) : Bool :=
  env.stat dbNetPath && env.stat anglePath && env.stat crnnPath && env.stat keyPath

/-- Whether a call on the engine object is a call of `OcrLite::detect`. -/
def EngineCall.isDetect : EngineCall → Bool
  | .detect .. => true
  | _ => false

/-- Whether a call on the engine object is a call of `OcrLite::initModels`. -/
def EngineCall.isInitModels : EngineCall → Bool
  | .initModels .. => true
  | _ => false

/-- Whether a call on the engine object configures it (`setNumThread` or `initLogger`). -/
def EngineCall.isConfig : EngineCall → Bool
  | .setNumThread .. => true
  | .initLogger .. => true
  | _ => false

/-- The values of the C type `int`. -/
def isInt (i : Int) : Prop := -2 ^ 31 ≤ i ∧ i < 2 ^ 31

/-- An environment for examples: the only file that exists is `a.png`, the engine finds no text
in it and reports both times as `0.0`, which `dump` prints as `0.0`. -/
def exampleEnv : Env where
  stat := fun name => name == "a.png"
  detect := fun _ _ _ _ _ _ _ _ _ _ => ⟨.f64 0, [], .f64 0⟩
  dump_float := fun _ => ascii "0.0"

/-! ## The serialized shape the spec promises (§6) -/

def json.is_number_float : json → Bool
  | .number_float _ => true
  | _ => false

def json.is_number_integer : json → Bool
  | .number_integer _ => true
  | _ => false

def json.is_string : json → Bool
  | .string _ => true
  | _ => false

/-- The value is an array and each of its elements satisfies `p`. -/
def json.is_array_of (p : json → Bool) : json → Bool
  | .array a => a.all p
  | _ => false

/-- The value is an object that has a member `key`, and that member satisfies `p`. -/
def json.has (j : json) (key : String) (p : json → Bool) : Bool :=
  match j.find key with
  | some v => p v
  | none => false

/-- The shape `{x:int, y:int}` of §6. -/
def pointShape (j : json) : Bool :=
  j.has "x" json.is_number_integer && j.has "y" json.is_number_integer

/-- The shape of one element of `textBlocks` in §6: the nine members, each of its kind. -/
def textBlockShape (j : json) : Bool :=
  j.has "boxPoint" (json.is_array_of pointShape) &&
  j.has "charScores" (json.is_array_of json.is_number_float) &&
  j.has "text" json.is_string &&
  j.has "boxScore" json.is_number_float &&
  j.has "angleIndex" json.is_number_integer &&
  j.has "angleScore" json.is_number_float &&
  j.has "angleTime" json.is_number_float &&
  j.has "crnnTime" json.is_number_float &&
  j.has "blockTime" json.is_number_float

/-- The shape of the serialized result in §6: the four top-level members, each of its kind. -/
def resultShape (j : json) : Bool :=
  j.has "dbNetTime" json.is_number_float &&
  j.has "detectTime" json.is_number_float &&
  j.has "textBlocks" (json.is_array_of textBlockShape) &&
  j.has "texts" (json.is_array_of json.is_string)

/-! ## Inputs for the examples -/

/-- A text block with four corners, no recognized character and hence no score. -/
def emptyTextBlock : TextBlock where
  boxPoint := [⟨0, 0⟩, ⟨9, 0⟩, ⟨9, 9⟩, ⟨0, 9⟩]
  boxScore := .f32 0
  angleIndex := 0
  angleScore := .f32 0
  angleTime := .f64 0
  charScores := []
  text := ""
  crnnTime := .f64 0
  blockTime := .f64 0

/-- A text block whose text is `n` times the letter `a`, with one score per letter. -/
def longTextBlock (n : Nat) : TextBlock where
  boxPoint := [⟨0, 0⟩, ⟨9, 0⟩, ⟨9, 9⟩, ⟨0, 9⟩]
  boxScore := .f32 0
  angleIndex := 0
  angleScore := .f32 0
  angleTime := .f64 0
  charScores := List.replicate n (.f32 0)
  text := String.mk (List.replicate n 'a')
  crnnTime := .f64 0
  blockTime := .f64 0

/-- The environment `exampleEnv`, except that the engine finds the one text block
`longTextBlock n` in `a.png`. -/
def longTextEnv (n : Nat) : Env where
  stat := fun name => name == "a.png"
  detect := fun _ _ _ _ _ _ _ _ _ _ => ⟨.f64 0, [longTextBlock n], .f64 0⟩
  dump_float := fun _ => ascii "0.0"
theorem mapSubscript_comp (key : String) (hk : keyLt key key = false)
    (f g : json → Except type_error json) (o : List (String × json)) :
    (mapSubscript key f o >>= mapSubscript key g) = mapSubscript key (fun v => f v >>= g) o := by
  induction o with
  | nil =>
    simp only [mapSubscript]
    cases f .null <;> simp [bind, Except.bind, pure, Except.pure, mapSubscript, hk]
  | cons kv rest ih =>
    obtain ⟨k, u⟩ := kv
    by_cases h1 : keyLt key k = true
    · simp only [mapSubscript, h1, if_true]
      cases f .null <;> simp [bind, Except.bind, pure, Except.pure, mapSubscript, hk]
    · by_cases h2 : keyLt k key = true
      · simp only [mapSubscript, h1, h2, if_true, if_false, Bool.false_eq_true] at ih ⊢
        rw [← ih]
        cases mapSubscript key f rest <;>
          simp [bind, Except.bind, pure, Except.pure, mapSubscript, h1, h2]
      · simp only [mapSubscript, h1, h2, if_false, Bool.false_eq_true]
        cases f u <;> simp [bind, Except.bind, pure, Except.pure, mapSubscript, h1, h2]

theorem subscript_comp (key : String) (hk : keyLt key key = false)
    (f g : json → Except type_error json) (j : json) :
    (j.subscript key f >>= fun j1 => j1.subscript key g) =
      j.subscript key (fun v => f v >>= g) := by
  cases j with
  | null =>
    simp only [json.subscript]
    rw [← mapSubscript_comp key hk f g []]
    cases mapSubscript key f [] <;> simp [bind, Except.bind, pure, Except.pure, json.subscript]
  | object o =>
    simp only [json.subscript]
    rw [← mapSubscript_comp key hk f g o]
    cases mapSubscript key f o <;> simp [bind, Except.bind, pure, Except.pure, json.subscript]
  | _ => simp [json.subscript, bind, Except.bind, throw, throwThe, MonadExceptOf.throw]

theorem pushMany_push_back (vs : List json) (v : json) :
    (fun u => pushMany vs u >>= json.push_back v) = pushMany (vs ++ [v]) := by
  funext u
  cases u <;> simp [pushMany, json.push_back, bind, Except.bind, pure, Except.pure, throw,
    throwThe, MonadExceptOf.throw]

theorem push_back_eq_pushMany (v : json) : json.push_back v = pushMany [v] := by
  funext u
  cases u <;> simp [pushMany, json.push_back]

/-- A loop that pushes one value per element to `j[key]` amounts to a single access of
`j[key]` that appends all the values, once the loop runs at least once. -/
theorem foldlM_push (α : Type) (key : String) (hk : keyLt key key = false) (g : α → json)
    (xs : List α) (vs : List json) (j : json) :
    (j.subscript key (pushMany vs) >>=
        fun j1 => xs.foldlM (fun j2 x => j2.subscript key (json.push_back (g x))) j1) =
      j.subscript key (pushMany (vs ++ xs.map g)) := by
  induction xs generalizing vs with
  | nil => simp
  | cons x xs ih =>
    simp only [List.foldlM_cons, List.map_cons]
    rw [← bind_assoc, subscript_comp key hk, pushMany_push_back, ih]
    simp

theorem foldlM_push_cons (α : Type) (key : String) (hk : keyLt key key = false) (g : α → json)
    (x : α) (xs : List α) (j : json) :
    (x :: xs).foldlM (fun j2 x => j2.subscript key (json.push_back (g x))) j =
      j.subscript key (pushMany ((x :: xs).map g)) := by
  rw [List.foldlM_cons, push_back_eq_pushMany, foldlM_push α key hk g xs [g x] j]
  simp

theorem pushBoxPoint_eq :
    pushBoxPoint = fun j p => j.subscript "boxPoint" (json.push_back (pointJson p)) := by
  funext j p
  have h1 : keyLt "y" "x" = false := by decide
  have h2 : keyLt "x" "y" = true := by decide
  simp [pushBoxPoint, json.subscript, mapSubscript, json.assign, pointJson, bind, Except.bind,
    pure, Except.pure, h1, h2]


theorem pushCharScore_eq :
    pushCharScore = fun j s => j.subscript "charScores" (json.push_back (json.number_float s)) := by
  funext j s
  rfl

theorem mkTextBlock_eq (item : TextBlock) : mkTextBlock item = .ok (blockJson item) := by
  obtain ⟨pts, bs, ai, as, at_, cs, tx, ct, bt⟩ := item
  have k1 : keyLt "boxPoint" "boxPoint" = false := by decide
  have k2 : keyLt "charScores" "charScores" = false := by decide
  unfold mkTextBlock
  rw [pushBoxPoint_eq, pushCharScore_eq]
  dsimp only
  cases pts with
  | nil =>
    cases cs with
    | nil =>
      simp +decide [json.subscript, mapSubscript, json.assign, blockJson, bind, Except.bind,
        pure, Except.pure]
    | cons c cs =>
      simp only [List.foldlM_nil, pure_bind]
      rw [foldlM_push_cons CFloat "charScores" k2]
      simp +decide [json.subscript, mapSubscript, json.assign, blockJson, bind, Except.bind,
        pure, Except.pure, pushMany]
  | cons p pts =>
    rw [foldlM_push_cons Point "boxPoint" k1]
    cases cs with
    | nil =>
      simp +decide [json.subscript, mapSubscript, json.assign, blockJson, bind, Except.bind,
        pure, Except.pure, pushMany]
    | cons c cs =>
      have e1 : ∀ vs, json.null.subscript "boxPoint" (pushMany vs) =
          .ok (.object [("boxPoint", .array vs)]) := fun _ => rfl
      rw [e1]
      simp only [bind, Except.bind]
      rw [foldlM_push_cons CFloat "charScores" k2]
      simp +decide [json.subscript, mapSubscript, json.assign, blockJson, bind, Except.bind,
        pure, Except.pure, pushMany]

theorem pushTextBlock_first (a b : json) (item : TextBlock) :
    pushTextBlock (.object [("dbNetTime", a), ("detectTime", b)]) item =
      .ok (.object [("dbNetTime", a), ("detectTime", b),
        ("textBlocks", .array [blockJson item]), ("texts", .array [.string item.text])]) := by
  unfold pushTextBlock
  rw [mkTextBlock_eq]
  simp +decide [json.subscript, mapSubscript, json.push_back, bind, Except.bind, pure,
    Except.pure]

theorem pushTextBlock_next (a b : json) (blocks texts : List json) (item : TextBlock) :
    pushTextBlock (.object [("dbNetTime", a), ("detectTime", b),
        ("textBlocks", .array blocks), ("texts", .array texts)]) item =
      .ok (.object [("dbNetTime", a), ("detectTime", b),
        ("textBlocks", .array (blocks ++ [blockJson item])),
        ("texts", .array (texts ++ [.string item.text]))]) := by
  unfold pushTextBlock
  rw [mkTextBlock_eq]
  simp +decide [json.subscript, mapSubscript, json.push_back, bind, Except.bind, pure,
    Except.pure]

theorem foldlM_pushTextBlock (a b : json) (items : List TextBlock) (blocks texts : List json) :
    items.foldlM pushTextBlock (.object [("dbNetTime", a), ("detectTime", b),
        ("textBlocks", .array blocks), ("texts", .array texts)]) =
      .ok (.object [("dbNetTime", a), ("detectTime", b),
        ("textBlocks", .array (blocks ++ items.map blockJson)),
        ("texts", .array (texts ++ items.map fun item => .string item.text))]) := by
  induction items generalizing blocks texts with
  | nil => simp [pure, Except.pure]
  | cons item items ih =>
    rw [List.foldlM_cons, pushTextBlock_next]
    simp only [bind, Except.bind]
    rw [ih]
    simp

/-- The loops of lines 63 to 86 never throw, and the value they build is `rootJson`. -/
theorem buildRoot_eq (result : OcrResult) : buildRoot result = .ok (rootJson result) := by
  obtain ⟨db, items, dt⟩ := result
  unfold buildRoot
  have e1 : json.null.subscript "dbNetTime" (json.assign (.number_float db)) =
      .ok (.object [("dbNetTime", .number_float db)]) := rfl
  have e2 : (json.object [("dbNetTime", .number_float db)]).subscript "detectTime"
      (json.assign (.number_float dt)) =
      .ok (.object [("dbNetTime", .number_float db), ("detectTime", .number_float dt)]) := by
    simp +decide [json.subscript, mapSubscript, json.assign, bind, Except.bind, pure,
      Except.pure]
  dsimp only
  rw [e1]
  simp only [bind, Except.bind]
  rw [e2]
  dsimp only
  cases items with
  | nil => simp [rootJson, pure, Except.pure]
  | cons item items =>
    rw [List.foldlM_cons, pushTextBlock_first]
    simp only [bind, Except.bind]
    rw [foldlM_pushTextBlock]
    simp [rootJson]

/-! ## What `ocr_detect` does once the handle and the image are there -/

theorem ok_bind {ε α β : Type} (x : α) (f : α → Except ε β) : (Except.ok x >>= f) = f x := rfl

theorem ocr_detect_eq (env : Env) (w : World) (o : OcrLite) (image_path : String)
    (out_buffer : List UInt8) (buffer_len padding maxSideLen : Int)
    (boxScoreThresh boxThresh unClipRatio : CFloat) (doAngle mostAngle : Bool)
    (hw : w.g_ocrLite = some o) (hp : env.stat image_path = true) :
    ocr_detect env w image_path out_buffer buffer_len padding maxSideLen boxScoreThresh
        boxThresh unClipRatio doAngle mostAngle =
      let o1 := o.call (paramsLog padding maxSideLen boxScoreThresh boxThresh unClipRatio
        doAngle mostAngle)
      let result := env.detect o1 "" image_path padding maxSideLen boxScoreThresh boxThresh
        unClipRatio doAngle mostAngle
      let o2 := o1.call (.detect "" image_path padding maxSideLen boxScoreThresh boxThresh
        unClipRatio doAngle mostAngle)
      let tempJsonStr := (rootJson result).dump env.dump_float
      if static_cast_int tempJsonStr.length > buffer_len then
        .ok ⟨0, ⟨some (o2.call (.Logger "buff_len is too small \n" [])),
          w.sys ++ [.stat image_path]⟩, out_buffer, buffer_len⟩
      else
        .ok ⟨1, ⟨some o2, w.sys ++ [.stat image_path, .memcpy tempJsonStr.length]⟩,
          tempJsonStr ++ out_buffer.drop tempJsonStr.length,
          static_cast_int tempJsonStr.length⟩ := by
  unfold ocr_detect
  rw [hw]
  simp only [isFileExists, hp, Bool.not_true, Bool.false_eq_true, if_false]
  rw [buildRoot_eq, ok_bind]
  simp only [World.sysCall, memcpy, kOcrError, kOcrSuccess, List.take_length, List.append_assoc,
    List.singleton_append]
  split <;> rfl

theorem static_cast_int_of_lt (n : Nat) (h : n < 2 ^ 31) : static_cast_int n = n := by
  unfold static_cast_int
  omega

/-! ## The lifecycle manager -/

theorem engineCalls_of_handle (w : World) (o : OcrLite) (h : w.g_ocrLite = some o) :
    w.engineCalls = o.calls := by
  unfold World.engineCalls
  rw [h]

theorem ocr_cleanup_of_none (w : World) (h : w.g_ocrLite = none) : ocr_cleanup w = w := by
  unfold ocr_cleanup
  rw [h]

theorem ocr_cleanup_handle (w : World) : (ocr_cleanup w).g_ocrLite = none := by
  unfold ocr_cleanup
  cases h : w.g_ocrLite <;> simp [h]

theorem ocr_init_handle (env : Env) (w : World) (numThread : Int)
    (dbNetPath anglePath crnnPath keyPath : String) :
    (ocr_init env w numThread dbNetPath anglePath crnnPath keyPath).2.g_ocrLite =
      some ⟨w.engineCalls ++ initCalls numThread dbNetPath anglePath crnnPath keyPath ++
        (if env.stat dbNetPath && env.stat anglePath && env.stat crnnPath && env.stat keyPath
          then [.initModels dbNetPath anglePath crnnPath keyPath]
          else [.Logger "invalid file path.\n" []])⟩ := by
  unfold ocr_init isFileExists
  cases hg : w.g_ocrLite <;> cases env.stat dbNetPath <;> cases env.stat anglePath <;>
    cases env.stat crnnPath <;> cases env.stat keyPath <;>
    simp [World.engineCalls, World.sysCall, hg, OcrLite.call, OcrLite.new, initCalls]

theorem ocr_init_status (env : Env) (w : World) (numThread : Int)
    (dbNetPath anglePath crnnPath keyPath : String) :
    (ocr_init env w numThread dbNetPath anglePath crnnPath keyPath).1 =
      if env.stat dbNetPath && env.stat anglePath && env.stat crnnPath && env.stat keyPath
        then 1 else 0 := by
  unfold ocr_init isFileExists
  cases hg : w.g_ocrLite <;> cases env.stat dbNetPath <;> cases env.stat anglePath <;>
    cases env.stat crnnPath <;> cases env.stat keyPath <;>
    simp [kOcrError, kOcrSuccess]

/-- The process-level calls of `ocr_init` are appended to those made before, and they begin with
`omp_set_num_threads`, followed by `new OcrLite()` exactly if there was no handle. -/
theorem ocr_init_sys (env : Env) (w : World) (numThread : Int)
    (dbNetPath anglePath crnnPath keyPath : String) :
    ∃ stats, (ocr_init env w numThread dbNetPath anglePath crnnPath keyPath).2.sys =
      w.sys ++ [.omp_set_num_threads numThread] ++
        (if w.g_ocrLite.isSome then [] else [.new_OcrLite]) ++ stats := by
  unfold ocr_init isFileExists
  cases hg : w.g_ocrLite <;> cases env.stat dbNetPath <;> cases env.stat anglePath <;>
    cases env.stat crnnPath <;> cases env.stat keyPath <;>
    simp [World.sysCall, hg]

/-- C5: `ocr_init` returns 0 exactly if one of the four paths does not exist and 1 exactly if
all four exist, for every engine behaviour, so its result is always 0 or 1; the calls it makes
on the engine object are `setNumThread`, `initLogger`, `Logger` and then `initModels` if all
four paths exist, the `Logger` call for an invalid path if not: `initModels` is called exactly
if all four paths exist. -/
theorem ocr_init_contract (env : Env) (w : World) (numThread : Int)
    (dbNetPath anglePath crnnPath keyPath : String) :
    ((ocr_init env w numThread dbNetPath anglePath crnnPath keyPath).1 = 0 ↔
      pathsExist env dbNetPath anglePath crnnPath keyPath = false) ∧
    ((ocr_init env w numThread dbNetPath anglePath crnnPath keyPath).1 = 1 ↔
      pathsExist env dbNetPath anglePath crnnPath keyPath = true) ∧
    ((ocr_init env w numThread dbNetPath anglePath crnnPath keyPath).1 = 0 ∨
      (ocr_init env w numThread dbNetPath anglePath crnnPath keyPath).1 = 1) ∧
    (∃ cs, (ocr_init env w numThread dbNetPath anglePath crnnPath keyPath).2.engineCalls =
        w.engineCalls ++ cs ∧
      cs = initCalls numThread dbNetPath anglePath crnnPath keyPath ++
        (if pathsExist env dbNetPath anglePath crnnPath keyPath
          then [.initModels dbNetPath anglePath crnnPath keyPath]
          else [.Logger "invalid file path.\n" []]) ∧
      (cs.any EngineCall.isInitModels = true ↔
        pathsExist env dbNetPath anglePath crnnPath keyPath = true)) := by
  have hs : (ocr_init env w numThread dbNetPath anglePath crnnPath keyPath).1 =
      if pathsExist env dbNetPath anglePath crnnPath keyPath then 1 else 0 :=
    ocr_init_status env w numThread dbNetPath anglePath crnnPath keyPath
  have hh : (ocr_init env w numThread dbNetPath anglePath crnnPath keyPath).2.g_ocrLite =
      some ⟨w.engineCalls ++ initCalls numThread dbNetPath anglePath crnnPath keyPath ++
        (if pathsExist env dbNetPath anglePath crnnPath keyPath
          then [.initModels dbNetPath anglePath crnnPath keyPath]
          else [.Logger "invalid file path.\n" []])⟩ :=
    ocr_init_handle env w numThread dbNetPath anglePath crnnPath keyPath
  refine ⟨?_, ?_, ?_, ?_⟩
  · rw [hs]; cases pathsExist env dbNetPath anglePath crnnPath keyPath <;> simp
  · rw [hs]; cases pathsExist env dbNetPath anglePath crnnPath keyPath <;> simp
  · rw [hs]; cases pathsExist env dbNetPath anglePath crnnPath keyPath <;> simp
  · refine ⟨_, ?_, rfl, ?_⟩
    · rw [engineCalls_of_handle _ _ hh, List.append_assoc]
    · cases pathsExist env dbNetPath anglePath crnnPath keyPath <;>
        simp [initCalls, EngineCall.isInitModels]

/-- C10: `ocr_cleanup` without a handle changes nothing; with a handle it deletes the engine
object and leaves `g_ocrLite` empty; a second `ocr_cleanup` changes nothing more; and an
`ocr_init` after it constructs a new engine object, whose calls are those of this `ocr_init`
alone, whatever had been called on the deleted one. -/
theorem ocr_cleanup_idempotent (env : Env) (w : World) (o : OcrLite) (sys : List SysCall)
    (numThread : Int) (dbNetPath anglePath crnnPath keyPath : String) :
    ocr_cleanup ⟨none, sys⟩ = ⟨none, sys⟩ ∧
    ocr_cleanup ⟨some o, sys⟩ = ⟨none, sys ++ [.delete_OcrLite]⟩ ∧
    ocr_cleanup (ocr_cleanup w) = ocr_cleanup w ∧
    (ocr_cleanup w).g_ocrLite = none ∧
    (ocr_init env (ocr_cleanup w) numThread dbNetPath anglePath crnnPath keyPath).2.g_ocrLite =
      (ocr_init env World.start numThread dbNetPath anglePath crnnPath keyPath).2.g_ocrLite ∧
    (∃ stats,
      (ocr_init env (ocr_cleanup w) numThread dbNetPath anglePath crnnPath keyPath).2.sys =
        (ocr_cleanup w).sys ++ [.omp_set_num_threads numThread, .new_OcrLite] ++ stats) := by
  have hc : (ocr_cleanup w).g_ocrLite = none := ocr_cleanup_handle w
  refine ⟨rfl, rfl, ocr_cleanup_of_none _ hc, hc, ?_, ?_⟩
  · rw [ocr_init_handle, ocr_init_handle]
    simp [World.engineCalls, hc, World.start]
  · obtain ⟨stats, hs⟩ :=
      ocr_init_sys env (ocr_cleanup w) numThread dbNetPath anglePath crnnPath keyPath
    refine ⟨stats, ?_⟩
    rw [hs, hc]
    simp

/-! ## The detection facade -/

/-- C1: with a handle present and an existing image, if the serialized result of the engine has
a byte length `L` that is at most the declared capacity `C`, `ocr_detect` returns 1, sets the
length field to `L`, puts the serialized bytes in the first `L` bytes of the buffer and leaves
the bytes from index `L` on as they were. The serialization itself always succeeds. -/
theorem ocr_detect_fits (env : Env) (w : World) (o : OcrLite) (image_path : String)
    (out_buffer : List UInt8) (C padding maxSideLen : Int)
    (boxScoreThresh boxThresh unClipRatio : CFloat) (doAngle mostAngle : Bool)
    (result : OcrResult)
    (hw : w.g_ocrLite = some o) (hp : env.stat image_path = true) (hC : isInt C)
    (hr : env.detect
      (o.call (paramsLog padding maxSideLen boxScoreThresh boxThresh unClipRatio doAngle
        mostAngle))
      "" image_path padding maxSideLen boxScoreThresh boxThresh unClipRatio doAngle mostAngle =
        result) :
    ∃ root, buildRoot result = .ok root ∧
      (((root.dump env.dump_float).length : Int) ≤ C →
        ∃ r, ocr_detect env w image_path out_buffer C padding maxSideLen boxScoreThresh
            boxThresh unClipRatio doAngle mostAngle = .ok r ∧
          r.status = 1 ∧
          r.buffer_len = (root.dump env.dump_float).length ∧
          r.out_buffer.take (root.dump env.dump_float).length = root.dump env.dump_float ∧
          r.out_buffer.drop (root.dump env.dump_float).length =
            out_buffer.drop (root.dump env.dump_float).length) := by
  refine ⟨rootJson result, buildRoot_eq result, fun hL => ?_⟩
  have hlt : ((rootJson result).dump env.dump_float).length < 2 ^ 31 := by
    have := hC.2
    omega
  have hcast := static_cast_int_of_lt _ hlt
  rw [ocr_detect_eq env w o image_path out_buffer C padding maxSideLen boxScoreThresh boxThresh
    unClipRatio doAngle mostAngle hw hp]
  dsimp only
  rw [hr, hcast, if_neg (not_lt.mpr hL)]
  exact ⟨_, rfl, rfl, rfl, by simp, by simp⟩

theorem ocr_detect_fits_witness :
    ∃ root, buildRoot ⟨.f64 0, [], .f64 0⟩ = .ok root ∧
      (((root.dump exampleEnv.dump_float).length : Int) ≤ 40 →
        ∃ r, ocr_detect exampleEnv ⟨some ⟨[]⟩, []⟩ "a.png" (List.replicate 40 0) 40 50 1024
            kDefaultBoxScoreThresh kDefaultBoxThresh kDefaultUnClipRatio true true = .ok r ∧
          r.status = 1 ∧
          r.buffer_len = (root.dump exampleEnv.dump_float).length ∧
          r.out_buffer.take (root.dump exampleEnv.dump_float).length =
            root.dump exampleEnv.dump_float ∧
          r.out_buffer.drop (root.dump exampleEnv.dump_float).length =
            (List.replicate 40 0).drop (root.dump exampleEnv.dump_float).length) :=
  ocr_detect_fits exampleEnv ⟨some ⟨[]⟩, []⟩ ⟨[]⟩ "a.png" (List.replicate 40 0) 40 50 1024
    kDefaultBoxScoreThresh kDefaultBoxThresh kDefaultUnClipRatio true true ⟨.f64 0, [], .f64 0⟩
    rfl (by decide) (by unfold isInt; decide) rfl

/-- C3: without an engine handle `ocr_detect` returns 0 and does nothing else: no call on an
engine, no `stat` of the image, the buffer and the length field as they were. After
`ocr_cleanup` this is the case from every starting state. -/
theorem ocr_detect_without_handle (env : Env) (w w0 : World) (image_path : String)
    (out_buffer : List UInt8) (buffer_len padding maxSideLen : Int)
    (boxScoreThresh boxThresh unClipRatio : CFloat) (doAngle mostAngle : Bool)
    (hw : w.g_ocrLite = none) :
    ocr_detect env w image_path out_buffer buffer_len padding maxSideLen boxScoreThresh
        boxThresh unClipRatio doAngle mostAngle = .ok ⟨0, w, out_buffer, buffer_len⟩ ∧
      ocr_detect env (ocr_cleanup w0) image_path out_buffer buffer_len padding maxSideLen
        boxScoreThresh boxThresh unClipRatio doAngle mostAngle =
          .ok ⟨0, ocr_cleanup w0, out_buffer, buffer_len⟩ := by
  have hc : (ocr_cleanup w0).g_ocrLite = none := ocr_cleanup_handle w0
  constructor
  · unfold ocr_detect
    rw [hw]
    rfl
  · unfold ocr_detect
    rw [hc]
    rfl

theorem ocr_detect_without_handle_witness :
    ocr_detect exampleEnv World.start "a.png" [1, 2, 3] 3 50 1024 kDefaultBoxScoreThresh
        kDefaultBoxThresh kDefaultUnClipRatio true true = .ok ⟨0, World.start, [1, 2, 3], 3⟩ ∧
      ocr_detect exampleEnv (ocr_cleanup ⟨some ⟨[]⟩, []⟩) "a.png" [1, 2, 3] 3 50 1024
        kDefaultBoxScoreThresh kDefaultBoxThresh kDefaultUnClipRatio true true =
          .ok ⟨0, ocr_cleanup ⟨some ⟨[]⟩, []⟩, [1, 2, 3], 3⟩ :=
  ocr_detect_without_handle exampleEnv World.start ⟨some ⟨[]⟩, []⟩ "a.png" [1, 2, 3] 3 50 1024
    kDefaultBoxScoreThresh kDefaultBoxThresh kDefaultUnClipRatio true true rfl

/-- C4: for an image path that does not exist, `ocr_detect` and `ocr_detect2` return 0 with the
buffer and the length field as they were; the engine object is left as it was (in particular
`OcrLite::detect` is not called on it), the only thing done is the `stat` of the path when a
handle is present. -/
theorem ocr_detect_missing_image (env : Env) (w : World) (image_path : String)
    (out_buffer : List UInt8) (buffer_len padding maxSideLen : Int)
    (boxScoreThresh boxThresh unClipRatio : CFloat) (doAngle mostAngle : Bool)
    (hp : env.stat image_path = false) :
    (∃ r, ocr_detect env w image_path out_buffer buffer_len padding maxSideLen boxScoreThresh
        boxThresh unClipRatio doAngle mostAngle = .ok r ∧
      r.status = 0 ∧ r.out_buffer = out_buffer ∧ r.buffer_len = buffer_len ∧
      r.world.g_ocrLite = w.g_ocrLite ∧
      r.world.sys = if w.g_ocrLite.isSome then w.sys ++ [.stat image_path] else w.sys) ∧
    (∃ r, ocr_detect2 env w image_path out_buffer buffer_len = .ok r ∧
      r.status = 0 ∧ r.out_buffer = out_buffer ∧ r.buffer_len = buffer_len ∧
      r.world.g_ocrLite = w.g_ocrLite ∧
      r.world.sys = if w.g_ocrLite.isSome then w.sys ++ [.stat image_path] else w.sys) := by
  have key : ∀ (padding maxSideLen : Int) (boxScoreThresh boxThresh unClipRatio : CFloat)
      (doAngle mostAngle : Bool),
      ∃ r, ocr_detect env w image_path out_buffer buffer_len padding maxSideLen boxScoreThresh
          boxThresh unClipRatio doAngle mostAngle = .ok r ∧
        r.status = 0 ∧ r.out_buffer = out_buffer ∧ r.buffer_len = buffer_len ∧
        r.world.g_ocrLite = w.g_ocrLite ∧
        r.world.sys = if w.g_ocrLite.isSome then w.sys ++ [.stat image_path] else w.sys := by
    intro padding maxSideLen boxScoreThresh boxThresh unClipRatio doAngle mostAngle
    unfold ocr_detect
    cases hg : w.g_ocrLite with
    | none => exact ⟨_, rfl, rfl, rfl, rfl, hg, by simp⟩
    | some o =>
      simp only [isFileExists, hp, Bool.not_false, if_true]
      exact ⟨_, rfl, rfl, rfl, rfl, by simp [World.sysCall, hg], by simp [World.sysCall]⟩
  exact ⟨key _ _ _ _ _ _ _, key _ _ _ _ _ _ _⟩

theorem ocr_detect_missing_image_witness :
    (∃ r, ocr_detect exampleEnv ⟨some ⟨[]⟩, []⟩ "b.png" [7] 1 50 1024 kDefaultBoxScoreThresh
        kDefaultBoxThresh kDefaultUnClipRatio true true = .ok r ∧
      r.status = 0 ∧ r.out_buffer = [7] ∧ r.buffer_len = 1 ∧
      r.world.g_ocrLite = some ⟨[]⟩ ∧
      r.world.sys = if (some (⟨[]⟩ : OcrLite)).isSome then [] ++ [.stat "b.png"] else []) ∧
    (∃ r, ocr_detect2 exampleEnv ⟨some ⟨[]⟩, []⟩ "b.png" [7] 1 = .ok r ∧
      r.status = 0 ∧ r.out_buffer = [7] ∧ r.buffer_len = 1 ∧
      r.world.g_ocrLite = some ⟨[]⟩ ∧
      r.world.sys = if (some (⟨[]⟩ : OcrLite)).isSome then [] ++ [.stat "b.png"] else []) :=
  ocr_detect_missing_image exampleEnv ⟨some ⟨[]⟩, []⟩ "b.png" [7] 1 50 1024
    kDefaultBoxScoreThresh kDefaultBoxThresh kDefaultUnClipRatio true true (by decide)

/-- C7: `ocr_detect2` is `ocr_detect` with the arguments 50, 1024, 0.6f, 0.3f, 2.0f, true, true:
same status, buffer, length field and process state. The seven constants have these values; the
three `float` constants are the `float` values nearest to 0.6 and 0.3, and 2 exactly. -/
theorem ocr_detect2_eq (env : Env) (w : World) (image_path : String) (out_buffer : List UInt8)
    (buffer_len : Int) :
    ocr_detect2 env w image_path out_buffer buffer_len =
        ocr_detect env w image_path out_buffer buffer_len 50 1024 (.f32 0x3F19999A)
          (.f32 0x3E99999A) (.f32 0x40000000) true true ∧
      kDefaultPadding = 50 ∧ kDefaultMaxSideLen = 1024 ∧
      |kDefaultBoxScoreThresh.toRat - 0.6| ≤ 1 / 2 ^ 25 ∧
      |kDefaultBoxThresh.toRat - 0.3| ≤ 1 / 2 ^ 26 ∧
      kDefaultUnClipRatio.toRat = 2.0 ∧
      kDefaultDoAngle = true ∧ kDefaultMostAngle = true := by
  refine ⟨rfl, rfl, rfl, ?_, ?_, ?_, rfl, rfl⟩
  · simp [kDefaultBoxScoreThresh, CFloat.toRat]
    norm_num [abs_le]
  · simp [kDefaultBoxThresh, CFloat.toRat]
    norm_num [abs_le]
  · simp [kDefaultUnClipRatio, CFloat.toRat]
    norm_num

/-- C6, as stated, fails: in a process without a handle, with none of the four model paths
existing, `ocr_init` returns 0 but leaves a configured engine handle behind, and the
`ocr_detect` that follows returns 1. -/
theorem ocr_init_failure_leaves_handle :
    World.start.g_ocrLite = none ∧ exampleEnv.stat "det.onnx" = false ∧
    (ocr_init exampleEnv World.start 4 "det.onnx" "cls.onnx" "rec.onnx" "keys.txt").1 = 0 ∧
    (ocr_init exampleEnv World.start 4 "det.onnx" "cls.onnx" "rec.onnx" "keys.txt").2.g_ocrLite
      ≠ none ∧
    (ocr_init exampleEnv World.start 4 "det.onnx" "cls.onnx" "rec.onnx"
      "keys.txt").2.engineCalls.any EngineCall.isConfig = true ∧
    (∃ r, ocr_detect exampleEnv
        (ocr_init exampleEnv World.start 4 "det.onnx" "cls.onnx" "rec.onnx" "keys.txt").2
        "a.png" (List.replicate 64 0) 64 50 1024 kDefaultBoxScoreThresh kDefaultBoxThresh
        kDefaultUnClipRatio true true = .ok r ∧ r.status = 1) := by
  refine ⟨rfl, by decide, by decide, by decide, by decide, ⟨_, rfl, rfl⟩⟩

/-- C6, amended: when `ocr_init` is called without a handle and one of the four paths does not
exist, it returns 0 and does not call `initModels`, but it has created an engine object, has
configured it (`setNumThread`, `initLogger`) and leaves it in `g_ocrLite`. The `ocr_detect` that
follows therefore passes the handle check: for a missing image it returns 0 after the `stat`,
for an existing image it calls `OcrLite::detect` on that object. -/
theorem ocr_init_failure_keeps_handle (env : Env) (w : World) (numThread : Int)
    (dbNetPath anglePath crnnPath keyPath image_path : String) (out_buffer : List UInt8)
    (buffer_len padding maxSideLen : Int) (boxScoreThresh boxThresh unClipRatio : CFloat)
    (doAngle mostAngle : Bool)
    (hw : w.g_ocrLite = none)
    (hm : pathsExist env dbNetPath anglePath crnnPath keyPath = false) :
    (ocr_init env w numThread dbNetPath anglePath crnnPath keyPath).1 = 0 ∧
    (ocr_init env w numThread dbNetPath anglePath crnnPath keyPath).2.g_ocrLite =
      some ⟨initCalls numThread dbNetPath anglePath crnnPath keyPath ++
        [.Logger "invalid file path.\n" []]⟩ ∧
    (∃ stats, (ocr_init env w numThread dbNetPath anglePath crnnPath keyPath).2.sys =
      w.sys ++ [.omp_set_num_threads numThread, .new_OcrLite] ++ stats) ∧
    (env.stat image_path = false →
      ocr_detect env (ocr_init env w numThread dbNetPath anglePath crnnPath keyPath).2
        image_path out_buffer buffer_len padding maxSideLen boxScoreThresh boxThresh
        unClipRatio doAngle mostAngle =
          .ok ⟨0, (ocr_init env w numThread dbNetPath anglePath crnnPath keyPath).2.sysCall
            (.stat image_path), out_buffer, buffer_len⟩) ∧
    (env.stat image_path = true →
      ∃ d, ocr_detect env (ocr_init env w numThread dbNetPath anglePath crnnPath keyPath).2
          image_path out_buffer buffer_len padding maxSideLen boxScoreThresh boxThresh
          unClipRatio doAngle mostAngle = .ok d ∧
        d.world.engineCalls.any EngineCall.isDetect = true) := by
  have hs : (ocr_init env w numThread dbNetPath anglePath crnnPath keyPath).1 =
      if pathsExist env dbNetPath anglePath crnnPath keyPath then 1 else 0 :=
    ocr_init_status env w numThread dbNetPath anglePath crnnPath keyPath
  have hh : (ocr_init env w numThread dbNetPath anglePath crnnPath keyPath).2.g_ocrLite =
      some ⟨w.engineCalls ++ initCalls numThread dbNetPath anglePath crnnPath keyPath ++
        (if pathsExist env dbNetPath anglePath crnnPath keyPath
          then [.initModels dbNetPath anglePath crnnPath keyPath]
          else [.Logger "invalid file path.\n" []])⟩ :=
    ocr_init_handle env w numThread dbNetPath anglePath crnnPath keyPath
  rw [hm] at hs hh
  simp only [World.engineCalls, hw, List.nil_append, Bool.false_eq_true, if_false] at hs hh
  refine ⟨hs, hh, ?_, ?_, ?_⟩
  · obtain ⟨stats, hst⟩ := ocr_init_sys env w numThread dbNetPath anglePath crnnPath keyPath
    refine ⟨stats, ?_⟩
    rw [hst, hw]
    simp
  · intro hp
    unfold ocr_detect
    rw [hh]
    simp only [isFileExists, hp, Bool.not_false, if_true]
    rfl
  · intro hp
    rw [ocr_detect_eq env _ _ image_path out_buffer buffer_len padding maxSideLen
      boxScoreThresh boxThresh unClipRatio doAngle mostAngle hh hp]
    dsimp only
    split
    · exact ⟨_, rfl, by simp [World.engineCalls, OcrLite.call, EngineCall.isDetect]⟩
    · exact ⟨_, rfl, by simp [World.engineCalls, OcrLite.call, EngineCall.isDetect]⟩

theorem ocr_init_failure_keeps_handle_witness :
    (ocr_init exampleEnv World.start 4 "det.onnx" "cls.onnx" "rec.onnx" "keys.txt").1 = 0 ∧
    (ocr_init exampleEnv World.start 4 "det.onnx" "cls.onnx" "rec.onnx" "keys.txt").2.g_ocrLite =
      some ⟨initCalls 4 "det.onnx" "cls.onnx" "rec.onnx" "keys.txt" ++
        [.Logger "invalid file path.\n" []]⟩ ∧
    (∃ stats,
      (ocr_init exampleEnv World.start 4 "det.onnx" "cls.onnx" "rec.onnx" "keys.txt").2.sys =
        World.start.sys ++ [.omp_set_num_threads 4, .new_OcrLite] ++ stats) ∧
    (exampleEnv.stat "a.png" = false →
      ocr_detect exampleEnv
        (ocr_init exampleEnv World.start 4 "det.onnx" "cls.onnx" "rec.onnx" "keys.txt").2
        "a.png" [] 64 50 1024 kDefaultBoxScoreThresh kDefaultBoxThresh kDefaultUnClipRatio
        true true =
          .ok ⟨0, (ocr_init exampleEnv World.start 4 "det.onnx" "cls.onnx" "rec.onnx"
            "keys.txt").2.sysCall (.stat "a.png"), [], 64⟩) ∧
    (exampleEnv.stat "a.png" = true →
      ∃ d, ocr_detect exampleEnv
          (ocr_init exampleEnv World.start 4 "det.onnx" "cls.onnx" "rec.onnx" "keys.txt").2
          "a.png" [] 64 50 1024 kDefaultBoxScoreThresh kDefaultBoxThresh kDefaultUnClipRatio
          true true = .ok d ∧
        d.world.engineCalls.any EngineCall.isDetect = true) :=
  ocr_init_failure_keeps_handle exampleEnv World.start 4 "det.onnx" "cls.onnx" "rec.onnx"
    "keys.txt" "a.png" [] 64 50 1024 kDefaultBoxScoreThresh kDefaultBoxThresh
    kDefaultUnClipRatio true true rfl (by decide)

/-! ## The shape of the serialized value -/

theorem pointShape_pointJson (p : Point) : pointShape (pointJson p) = true := by
  simp +decide [pointShape, pointJson, json.has, json.find, json.is_number_integer]

theorem textBlockShape_blockJson (item : TextBlock) :
    textBlockShape (blockJson item) = (!item.boxPoint.isEmpty && !item.charScores.isEmpty) := by
  obtain ⟨pts, bs, ai, as, at_, cs, tx, ct, bt⟩ := item
  cases pts <;> cases cs <;>
    simp +decide [textBlockShape, blockJson, json.has, json.find, json.is_number_integer,
      json.is_number_float, json.is_string, json.is_array_of, pointShape_pointJson]

theorem find_text_blockJson (item : TextBlock) :
    (blockJson item).find "text" = some (.string item.text) := by
  obtain ⟨pts, bs, ai, as, at_, cs, tx, ct, bt⟩ := item
  cases pts <;> cases cs <;> simp +decide [blockJson, json.find]

theorem all_textBlockShape (items : List TextBlock) :
    (items.map blockJson).all textBlockShape =
      items.all fun item => !item.boxPoint.isEmpty && !item.charScores.isEmpty := by
  induction items with
  | nil => rfl
  | cons item items ih => simp only [List.map_cons, List.all_cons, ih, textBlockShape_blockJson]

theorem all_is_string (items : List TextBlock) :
    ((items.map fun item => json.string item.text).all json.is_string) = true := by
  induction items with
  | nil => rfl
  | cons item items ih => simp only [List.map_cons, List.all_cons, ih, json.is_string, Bool.and_self]

/-- The value built by `ocr_detect` has the shape of §6 exactly if the result has at least one
text block and every text block has at least one corner and at least one score. -/
theorem resultShape_rootJson (result : OcrResult) :
    resultShape (rootJson result) =
      (!result.textBlocks.isEmpty &&
        result.textBlocks.all fun item => !item.boxPoint.isEmpty && !item.charScores.isEmpty) := by
  obtain ⟨db, items, dt⟩ := result
  cases items with
  | nil => simp +decide [resultShape, rootJson, json.has, json.find]
  | cons item items =>
    simp +decide [resultShape, rootJson, json.has, json.find, json.is_number_float,
      json.is_string, json.is_array_of, textBlockShape_blockJson, all_textBlockShape,
      all_is_string]

/-- C8, checked on the code: for a result without text blocks the value that `ocr_detect`
serializes has no member `textBlocks` and no member `texts`, and for a text block without
scores the element has no member `charScores`; neither value has the shape of §6, and
`ocr_detect` returns 1 with the bytes `{"dbNetTime":0.0,"detectTime":0.0}`. -/
theorem shape_lost_on_empty_sequences :
    (∃ root, buildRoot ⟨.f64 0, [], .f64 0⟩ = .ok root ∧
      root.find "textBlocks" = none ∧ root.find "texts" = none ∧ resultShape root = false) ∧
    (∃ r, ocr_detect exampleEnv ⟨some ⟨[]⟩, []⟩ "a.png" [] 64 50 1024 kDefaultBoxScoreThresh
        kDefaultBoxThresh kDefaultUnClipRatio true true = .ok r ∧ r.status = 1 ∧
      r.out_buffer = ascii "\x7b\"dbNetTime\":0.0,\"detectTime\":0.0\x7d") ∧
    (∃ root block, buildRoot ⟨.f64 0, [emptyTextBlock], .f64 0⟩ = .ok root ∧
      root.find "textBlocks" = some (.array [block]) ∧
      block.find "charScores" = none ∧ resultShape root = false) := by
  refine ⟨⟨_, buildRoot_eq _, rfl, rfl, by decide⟩, ⟨_, rfl, rfl, by decide⟩,
    ⟨_, blockJson emptyTextBlock, buildRoot_eq _, rfl, rfl, by decide⟩⟩

/-- C9: for a result with at least one text block the value built by `ocr_detect` has the
members `textBlocks` and `texts`, both arrays with one element per text block, in the order of
the result: element `i` of `textBlocks` is the value built for text block `i`, and its member
`text` and element `i` of `texts` are the text of text block `i`. -/
theorem texts_match_textBlocks (result : OcrResult) (hN : 1 ≤ result.textBlocks.length) :
    ∃ root blocks texts, buildRoot result = .ok root ∧
      root.find "textBlocks" = some (.array blocks) ∧
      root.find "texts" = some (.array texts) ∧
      blocks.length = result.textBlocks.length ∧
      texts.length = result.textBlocks.length ∧
      ∀ i (hi : i < result.textBlocks.length),
        texts[i]? = some (.string result.textBlocks[i].text) ∧
        ∃ block, blocks[i]? = some block ∧ mkTextBlock result.textBlocks[i] = .ok block ∧
          block.find "text" = some (.string result.textBlocks[i].text) := by
  obtain ⟨db, items, dt⟩ := result
  cases items with
  | nil => simp at hN
  | cons item items =>
    refine ⟨_, (item :: items).map blockJson,
      (item :: items).map (fun item => .string item.text), buildRoot_eq _, ?_, ?_, ?_, ?_, ?_⟩
    · simp +decide [rootJson, json.find]
    · simp +decide [rootJson, json.find]
    · simp
    · simp
    · intro i hi
      dsimp only at hi ⊢
      refine ⟨?_, blockJson (item :: items)[i], ?_, mkTextBlock_eq _, find_text_blockJson _⟩
      · rw [List.getElem?_map, List.getElem?_eq_getElem hi]
        rfl
      · rw [List.getElem?_map, List.getElem?_eq_getElem hi]
        rfl

theorem texts_match_textBlocks_witness :
    ∃ root blocks texts, buildRoot ⟨.f64 0, [longTextBlock 2, emptyTextBlock], .f64 0⟩ = .ok root ∧
      root.find "textBlocks" = some (.array blocks) ∧
      root.find "texts" = some (.array texts) ∧
      blocks.length = [longTextBlock 2, emptyTextBlock].length ∧
      texts.length = [longTextBlock 2, emptyTextBlock].length ∧
      ∀ i (hi : i < [longTextBlock 2, emptyTextBlock].length),
        texts[i]? = some (.string [longTextBlock 2, emptyTextBlock][i].text) ∧
        ∃ block, blocks[i]? = some block ∧
          mkTextBlock [longTextBlock 2, emptyTextBlock][i] = .ok block ∧
          block.find "text" = some (.string [longTextBlock 2, emptyTextBlock][i].text) :=
  texts_match_textBlocks ⟨.f64 0, [longTextBlock 2, emptyTextBlock], .f64 0⟩ (by decide)

/-! ## The length check and results of 2 GiB and more -/

theorem length_dumpElements_replicate (df : CFloat → List UInt8) (v : json) (n : Nat) :
    (dumpElements df (List.replicate (n + 1) v)).length = (n + 1) * (v.dump df).length + n := by
  induction n with
  | zero => simp [List.replicate, dumpElements]
  | succ n ih =>
    rw [List.replicate_succ, List.replicate_succ, dumpElements, ← List.replicate_succ]
    simp only [List.length_append, List.length_cons, ih]
    ring

theorem length_dump_escaped_replicate (n : Nat) :
    (dump_escaped (String.mk (List.replicate n 'a'))).length = n := by
  unfold dump_escaped
  induction n with
  | zero => rfl
  | succ n ih =>
    rw [List.replicate_succ, List.flatMap_cons, List.length_append, ih]
    have h : (dump_escaped_char 'a').length = 1 := by decide
    rw [h]
    omega

theorem blockJson_longTextBlock (m : Nat) :
    blockJson (longTextBlock (m + 1)) =
      .object
        [("angleIndex", .number_integer 0), ("angleScore", .number_float (.f32 0)),
         ("angleTime", .number_float (.f64 0)), ("blockTime", .number_float (.f64 0)),
         ("boxPoint", .array [pointJson ⟨0, 0⟩, pointJson ⟨9, 0⟩, pointJson ⟨9, 9⟩,
            pointJson ⟨0, 9⟩]),
         ("boxScore", .number_float (.f32 0)),
         ("charScores", .array (List.replicate (m + 1) (.number_float (.f32 0)))),
         ("crnnTime", .number_float (.f64 0)),
         ("text", .string (String.mk (List.replicate (m + 1) 'a')))] := by
  simp [blockJson, longTextBlock, List.replicate_succ]

/-- The serialized length of a result with the one text block `longTextBlock n`. -/
theorem length_dump_longTextBlock (n : Nat) (hn : 0 < n) :
    ((rootJson ⟨.f64 0, [longTextBlock n], .f64 0⟩).dump fun _ => ascii "0.0").length =
      6 * n + 252 := by
  obtain ⟨m, rfl⟩ : ∃ m, n = m + 1 := ⟨n - 1, by omega⟩
  have ht : (longTextBlock (m + 1)).text = String.mk (List.replicate (m + 1) 'a') := rfl
  simp only [rootJson, List.map_cons, List.map_nil, blockJson_longTextBlock, ht, List.cons_append,
    List.nil_append]
  have hs := length_dumpElements_replicate (fun _ => ascii "0.0") (.number_float (.f32 0)) m
  generalize List.replicate (m + 1) (json.number_float (CFloat.f32 0)) = scores at hs ⊢
  simp only [json.dump, dumpMembers, dumpElements, dump_string, List.length_append,
    List.length_cons, length_dump_escaped_replicate, List.length_nil, pointJson] at hs ⊢
  have k0 : (dump_escaped "dbNetTime").length = 9 := by decide
  have k1 : (dump_escaped "detectTime").length = 10 := by decide
  have k2 : (dump_escaped "textBlocks").length = 10 := by decide
  have k3 : (dump_escaped "texts").length = 5 := by decide
  have k4 : (dump_escaped "angleIndex").length = 10 := by decide
  have k5 : (dump_escaped "angleScore").length = 10 := by decide
  have k6 : (dump_escaped "angleTime").length = 9 := by decide
  have k7 : (dump_escaped "blockTime").length = 9 := by decide
  have k8 : (dump_escaped "boxPoint").length = 8 := by decide
  have k9 : (dump_escaped "boxScore").length = 8 := by decide
  have k10 : (dump_escaped "charScores").length = 10 := by decide
  have k11 : (dump_escaped "crnnTime").length = 8 := by decide
  have k12 : (dump_escaped "text").length = 4 := by decide
  have k13 : (dump_escaped "x").length = 1 := by decide
  have k14 : (dump_escaped "y").length = 1 := by decide
  have f0 : (ascii "0.0").length = 3 := by decide
  have i0 : (dump_integer 0).length = 1 := by decide
  have i9 : (dump_integer 9).length = 1 := by decide
  simp only [k0, k1, k2, k3, k4, k5, k6, k7, k8, k9, k10, k11, k12, k13, k14, f0, i0, i9] at hs ⊢
  omega

/-- When the serialized length is below `2 ^ 31` and above the declared capacity, `ocr_detect`
returns 0 and leaves the buffer and the length field as they were. -/
theorem ocr_detect_too_small (env : Env) (w : World) (o : OcrLite) (image_path : String)
    (out_buffer : List UInt8) (C padding maxSideLen : Int)
    (boxScoreThresh boxThresh unClipRatio : CFloat) (doAngle mostAngle : Bool)
    (hw : w.g_ocrLite = some o) (hp : env.stat image_path = true)
    (hlt : ((rootJson (env.detect
      (o.call (paramsLog padding maxSideLen boxScoreThresh boxThresh unClipRatio doAngle
        mostAngle))
      "" image_path padding maxSideLen boxScoreThresh boxThresh unClipRatio doAngle
        mostAngle)).dump env.dump_float).length < 2 ^ 31)
    (hL : C < ((rootJson (env.detect
      (o.call (paramsLog padding maxSideLen boxScoreThresh boxThresh unClipRatio doAngle
        mostAngle))
      "" image_path padding maxSideLen boxScoreThresh boxThresh unClipRatio doAngle
        mostAngle)).dump env.dump_float).length) :
    ∃ r, ocr_detect env w image_path out_buffer C padding maxSideLen boxScoreThresh
        boxThresh unClipRatio doAngle mostAngle = .ok r ∧
      r.status = 0 ∧ r.out_buffer = out_buffer ∧ r.buffer_len = C ∧
      r.world.sys = w.sys ++ [.stat image_path] := by
  rw [ocr_detect_eq env w o image_path out_buffer C padding maxSideLen boxScoreThresh boxThresh
    unClipRatio doAngle mostAngle hw hp]
  dsimp only
  rw [static_cast_int_of_lt _ hlt, if_pos hL]
  exact ⟨_, rfl, rfl, rfl, rfl, rfl⟩

/-- C2, checked on the code: the engine reports one text line of 536870912 letters, whose
serialized form has 3221225724 bytes, and the caller declares a capacity of 0 bytes. The length
is cast to the `int` -1073741572, which is not greater than 0, so `ocr_detect` returns 1,
copies all 3221225724 bytes to the buffer and sets the length field to -1073741572. -/
theorem ocr_detect_overflows_buffer :
    ∃ r, ocr_detect (longTextEnv 536870912) ⟨some ⟨[]⟩, []⟩ "a.png" [] 0 50 1024
        kDefaultBoxScoreThresh kDefaultBoxThresh kDefaultUnClipRatio true true = .ok r ∧
      r.status = 1 ∧ r.out_buffer.length = 3221225724 ∧ r.buffer_len = -1073741572 ∧
      r.world.sys = [.stat "a.png", .memcpy 3221225724] := by
  have hp : (longTextEnv 536870912).stat "a.png" = true := by decide
  have hlen := length_dump_longTextBlock 536870912 (by norm_num)
  have hcast : static_cast_int 3221225724 = -1073741572 := by
    unfold static_cast_int
    norm_num
  rw [ocr_detect_eq (longTextEnv 536870912) ⟨some ⟨[]⟩, []⟩ ⟨[]⟩ "a.png" [] 0 50 1024
    kDefaultBoxScoreThresh kDefaultBoxThresh kDefaultUnClipRatio true true rfl hp]
  dsimp only [longTextEnv]
  rw [hlen]
  have e : 6 * 536870912 + 252 = 3221225724 := by norm_num
  rw [e] at hlen ⊢
  rw [hcast, if_neg (by norm_num)]
  refine ⟨_, rfl, rfl, ?_, rfl, rfl⟩
  rw [List.length_append, hlen]
  rfl

end OcrFacade
